import Mathlib

/-!
Shallow embedding of the core of the rust-battery repository:
the `BatteryDevice` default derived-metric algorithms
(src/battery/src/platform/traits.rs), the facade `Manager`
(src/battery/src/types/manager.rs), the Windows backend manager
(src/battery/src/platform/windows/manager.rs) and the foreign boundary
functions (src/battery-ffi/src/manager.rs).

Physical quantities (energy, power, time, ratio) are `uom` f64 quantities
stored in base SI units (joule, watt, second, dimensionless).  They are
modelled by exact rationals: every arithmetic operation the embedded code
performs (subtraction, division by a non-zero rate, comparison against a
constant) is exact, and all the concrete inputs appearing in the spec are
exactly representable.
-/

/-- Errors carried by the library's `Result` type; only the message is
observable at this level of the model. -/
abbrev Error := String

/-- Modelled from the spec: the battery state enumeration
{Unknown, Charging, Discharging, Empty, Full} (`State` is defined in
`battery/src/types/state.rs`, which is not among the provided sources). -/
inductive State where
  | Unknown
  | Charging
  | Discharging
  | Empty
  | Full
deriving DecidableEq, Repr

/-- Modelled from the spec: the battery technology enumeration; the spec only
says "technology enumeration" and the defining file is not among the provided
sources, so a single placeholder variant is used (no claim depends on it). -/
inductive Technology where
  | unknown
deriving DecidableEq, Repr

/-- `uom` quantities modelled as exact rationals in base SI units. -/
abbrev Energy := ℚ
abbrev Power := ℚ
abbrev Time := ℚ
abbrev Ratio := ℚ
abbrev ElectricPotential := ℚ
abbrev ThermodynamicTemperature := ℚ

/-- `uom` stores `Time` in seconds; `t.get::<hour>()` divides by 3600. -/
def getHour (t : Time) : ℚ := t / 3600

/-- `uom` stores `Time` in seconds; `t.get::<day>()` divides by 86400. -/
def getDay (t : Time) : ℚ := t / 86400

/-- `uom` stores `Energy` in joules; one watt-hour is 3600 joules. -/
def whToJoule (x : ℚ) : Energy := 3600 * x

/-- `f64::is_sign_positive` on the exact value of a difference of quantities:
true for every nonnegative value.  (`a - a` is `+0.0` in IEEE round-to-nearest,
so a zero difference tests positive, matching the f64 behaviour.) -/
def is_sign_positive (q : ℚ) : Bool := 0 ≤ q

/-- Modelled from the spec: `Bound::into_bounded` from `battery/src/units`
(not among the provided sources) clamps a ratio into the range [0.0, 1.0]. -/
def into_bounded (r : Ratio) : Ratio := min 1 (max 0 r)

/-- A fully populated battery snapshot: the field set every
`BatteryDevice` implementation must provide (src/battery/src/platform/traits.rs). -/
structure Device where
  energy : Energy
  energy_full : Energy
  energy_full_design : Energy
  energy_rate : Power
  state : State
  voltage : ElectricPotential
  temperature : Option ThermodynamicTemperature
  vendor : Option String
  model : Option String
  serial_number : Option String
  technology : Technology
  cycle_count : Option Nat
deriving Repr

/-- Default `BatteryDevice::state_of_health`:
`(self.energy_full() / self.energy_full_design()).into_bounded()`. -/
def Device.state_of_health (d : Device) : Ratio :=
  into_bounded (d.energy_full / d.energy_full_design)

/-- Default `BatteryDevice::state_of_charge`:
`(self.energy() / self.energy_full()).into_bounded()`. -/
def Device.state_of_charge (d : Device) : Ratio :=
  into_bounded (d.energy / d.energy_full)

/-- Default `BatteryDevice::time_to_full`.  The Rust body matches on
`self.state()` with a `State::Charging if !energy_rate.is_zero()` guard;
a failed guard falls through to the `_ => None` arm. -/
def Device.time_to_full (d : Device) : Option Time :=
  let energy_rate := d.energy_rate
  match d.state with
  | State.Charging =>
    if energy_rate ≠ 0 then
      let value := d.energy_full - d.energy
      if is_sign_positive value then
        let ttf := value / energy_rate
        if getHour ttf > 10 then
          none
        else
          some ttf
      else
        none
    else
      none
  | _ => none

/-- Default `BatteryDevice::time_to_empty`, with the
`State::Discharging if !energy_rate.is_zero()` guard. -/
def Device.time_to_empty (d : Device) : Option Time :=
  let energy_rate := d.energy_rate
  match d.state with
  | State.Discharging =>
    if energy_rate ≠ 0 then
      let tte := d.energy / energy_rate
      if getDay tte > 10 then
        none
      else
        some tte
    else
      none
  | _ => none

/-- The concrete input of the spec's time_to_full example:
energy_full = 50 Wh, energy = 40 Wh, energy_rate = 5 W, state = Charging. -/
def chargingExample : Device :=
  { energy := whToJoule 40
    energy_full := whToJoule 50
    energy_full_design := whToJoule 50
    energy_rate := 5
    state := State.Charging
    voltage := 12
    temperature := none
    vendor := none
    model := none
    serial_number := none
    technology := Technology.unknown
    cycle_count := none }

/-- The concrete input of the spec's time_to_empty example:
energy = 20 Wh, energy_rate = 2 W, state = Discharging. -/
def dischargingExample : Device :=
  { energy := whToJoule 20
    energy_full := whToJoule 50
    energy_full_design := whToJoule 50
    energy_rate := 2
    state := State.Discharging
    voltage := 12
    temperature := none
    vendor := none
    model := none
    serial_number := none
    technology := Technology.unknown
    cycle_count := none }

/-- A device that is exactly at full capacity while still charging. -/
def exactlyFullExample : Device :=
  { energy := whToJoule 50
    energy_full := whToJoule 50
    energy_full_design := whToJoule 50
    energy_rate := 5
    state := State.Charging
    voltage := 12
    temperature := none
    vendor := none
    model := none
    serial_number := none
    technology := Technology.unknown
    cycle_count := none }

/-- C1: `time_to_full` returns `none` whenever the state is not `Charging`, or
the energy rate is 0, or `energy_full - energy` is negative, or the computed
duration exceeds 10 hours; otherwise it returns
`some ((energy_full - energy) / energy_rate)`.  On the spec's example
(energy_full = 50 Wh, energy = 40 Wh, rate = 5 W, Charging) it returns
2 hours (7200 s). -/
theorem time_to_full_spec :
    (∀ d : Device,
      d.time_to_full =
        if d.state = State.Charging ∧ d.energy_rate ≠ 0 ∧
           ¬ d.energy_full - d.energy < 0 ∧
           ¬ getHour ((d.energy_full - d.energy) / d.energy_rate) > 10 then
          some ((d.energy_full - d.energy) / d.energy_rate)
        else none) ∧
    chargingExample.time_to_full = some (2 * 3600) := by
  constructor
  · intro d
    unfold Device.time_to_full
    cases hs : d.state <;>
      simp only [is_sign_positive, decide_eq_true_eq, hs, not_lt] <;>
      split_ifs <;> simp_all <;> linarith
  · norm_num [Device.time_to_full, chargingExample, whToJoule, getHour,
      is_sign_positive]

/-- C2: `time_to_empty` returns `none` whenever the state is not
`Discharging`, or the energy rate is 0, or the computed duration exceeds
10 days; otherwise it returns `some (energy / energy_rate)`.  On the spec's
example (energy = 20 Wh, rate = 2 W, Discharging) it returns
10 hours (36000 s). -/
theorem time_to_empty_spec :
    (∀ d : Device,
      d.time_to_empty =
        if d.state = State.Discharging ∧ d.energy_rate ≠ 0 ∧
           ¬ getDay (d.energy / d.energy_rate) > 10 then
          some (d.energy / d.energy_rate)
        else none) ∧
    dischargingExample.time_to_empty = some (10 * 3600) := by
  constructor
  · intro d
    unfold Device.time_to_empty
    cases hs : d.state <;> simp only [hs] <;> split_ifs <;> simp_all
  · norm_num [Device.time_to_empty, dischargingExample, whToJoule, getDay]

/-- C3: for every snapshot, `state_of_health` is
`energy_full / energy_full_design` clamped into [0, 1] and
`state_of_charge` is `energy / energy_full` clamped into [0, 1];
both always lie in [0, 1], whatever the raw readings. -/
theorem state_of_health_charge_bounded (d : Device) :
    d.state_of_health = into_bounded (d.energy_full / d.energy_full_design) ∧
    d.state_of_charge = into_bounded (d.energy / d.energy_full) ∧
    0 ≤ d.state_of_health ∧ d.state_of_health ≤ 1 ∧
    0 ≤ d.state_of_charge ∧ d.state_of_charge ≤ 1 := by
  refine ⟨rfl, rfl, ?_, ?_, ?_, ?_⟩ <;>
    simp only [Device.state_of_health, Device.state_of_charge, into_bounded] <;>
    [exact le_min (by norm_num) (le_max_left 0 _);
     exact min_le_left 1 _;
     exact le_min (by norm_num) (le_max_left 0 _);
     exact min_le_left 1 _]

/-- C10: a charging device with nonzero energy rate whose `energy_full`
exactly equals `energy` gets `some 0` from `time_to_full` (the zero
difference passes the sign test), not `none`. -/
theorem time_to_full_exactly_full (d : Device) (hst : d.state = State.Charging)
    (hr : d.energy_rate ≠ 0) (he : d.energy_full = d.energy) :
    d.time_to_full = some 0 := by
  unfold Device.time_to_full
  simp [hst, hr, he, is_sign_positive, getHour]

/-- Witness for C10 at a concrete device that is exactly full while
charging. -/
theorem time_to_full_exactly_full_witness :
    exactlyFullExample.time_to_full = some 0 :=
  time_to_full_exactly_full exactlyFullExample rfl (by norm_num [exactlyFullExample]) rfl

/-! ## Backend manager, facade Manager and reference-counted ownership

`battery/src/types/manager.rs` wraps the platform backend manager in an
`Rc`.  The `Rc` store is modelled explicitly: a heap of cells, each holding
an optional backend-manager value and a strong reference count.  A cell's
value is destroyed (set to `none`) exactly when its count drops to zero. -/

/-- The Windows backend manager (`battery/src/platform/windows/manager.rs`):
a field-less struct. -/
structure PowerManager where
deriving DecidableEq, Repr

/-- `BatteryManager::new` for the Windows backend: `Ok(PowerManager {})`,
unconditionally. -/
def PowerManager.new : Except Error PowerManager := Except.ok PowerManager.mk

/-- `crate::platform::Manager` resolves to the selected OS backend manager;
the backend whose source is provided is the Windows one. -/
abbrev PlatformManager := PowerManager

/-- The store of `Rc<PlatformManager>` cells: per cell id, the stored value
(`none` once destroyed) and its strong count. -/
structure RcHeap where
  vals : Nat → Option PlatformManager
  count : Nat → Nat
  nextId : Nat

/-- The empty `Rc` store. -/
def RcHeap.init : RcHeap := ⟨fun _ => none, fun _ => 0, 0⟩

/-- `Rc::new(v)`: allocate a fresh cell with strong count 1; returns the new
cell id. -/
def RcHeap.alloc (h : RcHeap) (v : PlatformManager) : Nat × RcHeap :=
  (h.nextId,
   ⟨fun i => if i = h.nextId then some v else h.vals i,
    fun i => if i = h.nextId then 1 else h.count i,
    h.nextId + 1⟩)

/-- `Rc::clone`: increment the cell's strong count. -/
def RcHeap.clone (h : RcHeap) (i : Nat) : RcHeap :=
  ⟨h.vals,
   fun j => if j = i then h.count i + 1 else h.count j,
   h.nextId⟩

/-- Dropping one `Rc` handle: decrement the strong count; when it reaches
zero the stored value is destroyed. -/
def RcHeap.dropRef (h : RcHeap) (i : Nat) : RcHeap :=
  ⟨fun j => if j = i ∧ h.count i ≤ 1 then none else h.vals j,
   fun j => if j = i then h.count i - 1 else h.count j,
   h.nextId⟩

/-- A cell is alive while at least one strong reference to it exists. -/
def RcHeap.alive (h : RcHeap) (i : Nat) : Prop := 0 < h.count i

/-- The facade `Manager` (`battery/src/types/manager.rs`):
`inner: Rc<PlatformManager>`, modelled as the id of the `Rc` cell. -/
structure Manager where
  inner : Nat
deriving DecidableEq, Repr

/-- Facade `Manager::new()`: a single call of `PlatformManager::new()?`,
then `Rc::new` around the fresh backend value.  The backend constructor's
outcome is passed as a parameter (the Windows backend always succeeds, other
backends may fail); the error propagates verbatim via the `?` operator. -/
def Manager.new (backend : Except Error PlatformManager) (h : RcHeap) :
    Except Error Manager × RcHeap :=
  match backend with
  | Except.error e => (Except.error e, h)
  | Except.ok inner =>
    let a := h.alloc inner
    (Except.ok ⟨a.1⟩, a.2)

/-- The platform backend iterator: per the `BatteryIterator` contract it
stores the `Rc` to its manager (even if unused) and yields one
`Result<Device>` per step, lazily over the snapshot taken at enumeration
start. -/
structure PlatformIterator where
  manager : Nat
  pending : List (Except Error Device)
deriving Repr

/-- Modelled from the spec: the `Batteries` facade
(`battery/src/types/batteries.rs` is not among the provided sources);
`Batteries::from(inner)` wraps the platform iterator and each step wraps the
yielded device as a `Battery` facade value 1:1. -/
structure Batteries where
  inner : PlatformIterator
deriving Repr

/-- Modelled from the spec: stepping a `Batteries` iterator consumes only its
own cursor (the sequence is finite, lazy and non-restartable). -/
def Batteries.next (b : Batteries) : Option (Except Error Device) × Batteries :=
  match b.inner.pending with
  | [] => (none, b)
  | x :: rest => (some x, ⟨⟨b.inner.manager, rest⟩⟩)

/-- Facade `Manager::batteries()`:
`PlatformIterator::new(self.inner.clone())?`, then `Batteries::from`.
The OS-dependent outcome of `PlatformIterator::new` (failure, or the
snapshot of currently visible batteries) is passed as a parameter; the
cloned `Rc` is handed to the new iterator on success and dropped again when
the backend constructor fails. -/
def Manager.batteries (m : Manager)
    (iterOutcome : Except Error (List (Except Error Device))) (h : RcHeap) :
    Except Error Batteries × RcHeap :=
  let h1 := h.clone m.inner
  match iterOutcome with
  | Except.error e => (Except.error e, h1.dropRef m.inner)
  | Except.ok items => (Except.ok ⟨⟨m.inner, items⟩⟩, h1)

/-! ## Foreign boundary (`battery-ffi/src/manager.rs`)

Handles crossing the C boundary are modelled as `Option Nat`: `none` is the
null pointer, `some p` an opaque heap address.  The per-thread state visible
to these calls is the `Rc` store, the boxed `Manager` and `Batteries`
heaps, and the calling thread's last-error slot.  A Rust panic is modelled
as the `Except.error` branch of the result. -/

/-- Per-thread view of the FFI state. -/
structure FfiState where
  lastError : Option Error
  rc : RcHeap
  managers : Nat → Option Manager
  iterators : Nat → Option Batteries
  nextPtr : Nat

/-- The initial FFI state: empty heaps, no error recorded. -/
def FfiState.init : FfiState :=
  ⟨none, RcHeap.init, fun _ => none, fun _ => none, 0⟩

/-- `battery_manager_new`: on `Ok(manager)` box it and return the raw
pointer; on `Err(e)` store the error in the thread's last-error slot and
return null.  Total — no panic path. -/
def battery_manager_new (backend : Except Error PlatformManager)
    (s : FfiState) : Option Nat × FfiState :=
  match Manager.new backend s.rc with
  | (Except.ok m, rc) =>
    (some s.nextPtr,
     { s with
        rc := rc
        managers := fun p => if p = s.nextPtr then some m else s.managers p
        nextPtr := s.nextPtr + 1 })
  | (Except.error e, rc) =>
    (none, { s with rc := rc, lastError := some e })

/-- `battery_manager_iter`: `assert!(!ptr.is_null())` — a panic
(`Except.error`) on the null pointer; otherwise dereference the handle and
call `manager.batteries()`, boxing the iterator on success and storing the
error plus returning null on failure.  Dereferencing a non-null pointer that
is not a live `Manager` box is undefined behaviour in Rust; the model maps
it to a distinguished fault and the claims quantify only over live handles. -/
def battery_manager_iter (p : Option Nat)
    (iterOutcome : Except Error (List (Except Error Device)))
    (s : FfiState) : Except String (Option Nat × FfiState) :=
  match p with
  | none => Except.error "assertion failed: !ptr.is_null()"
  | some q =>
    match s.managers q with
    | none => Except.error "undefined behaviour: dangling manager pointer"
    | some m =>
      match m.batteries iterOutcome s.rc with
      | (Except.ok it, rc) =>
        Except.ok
          (some s.nextPtr,
           { s with
              rc := rc
              iterators := fun r => if r = s.nextPtr then some it else s.iterators r
              nextPtr := s.nextPtr + 1 })
      | (Except.error e, rc) =>
        Except.ok (none, { s with rc := rc, lastError := some e })

/-- `battery_manager_free`: an early `return` on the null pointer, leaving
every piece of state untouched; otherwise `Box::from_raw` reclaims the box
and dropping the `Manager` drops its `Rc` handle.  (Freeing a non-null
pointer that is not a live box is undefined behaviour — double free — and is
modelled as leaving the state unchanged; no claim depends on that case.) -/
def battery_manager_free (p : Option Nat) (s : FfiState) : FfiState :=
  match p with
  | none => s
  | some q =>
    match s.managers q with
    | none => s
    | some m =>
      { s with
         managers := fun r => if r = q then none else s.managers r
         rc := s.rc.dropRef m.inner }

/-- C5: facade `Manager::new` makes a single backend-constructor attempt:
it returns exactly the backend error when the backend fails, and otherwise a
facade wrapping a freshly allocated shared (count = 1) cell holding exactly
the backend value that was just constructed. -/
theorem manager_new_spec :
    (∀ (e : Error) (h : RcHeap),
      Manager.new (Except.error e) h = (Except.error e, h)) ∧
    (∀ (pm : PlatformManager) (h : RcHeap),
      (Manager.new (Except.ok pm) h).1 = Except.ok ⟨h.nextId⟩ ∧
      (Manager.new (Except.ok pm) h).2.vals h.nextId = some pm ∧
      (Manager.new (Except.ok pm) h).2.count h.nextId = 1) := by
  refine ⟨fun e h => rfl, fun pm h => ?_⟩
  simp [Manager.new, RcHeap.alloc]

/-- C6: each `Manager::batteries()` call builds a fresh backend iterator over
its own enumeration snapshot, seeded with a new counted reference to the same
backend cell (the strong count grows by one per call); after two calls and
then dropping the facade Manager's own reference, the backend cell is still
alive and its stored value is untouched (not destroyed), because the live
iterators still hold counted references. -/
theorem batteries_shared_ownership (m : Manager)
    (items1 items2 : List (Except Error Device)) (h : RcHeap) :
    (m.batteries (Except.ok items1) h).1 = Except.ok ⟨⟨m.inner, items1⟩⟩ ∧
    (m.batteries (Except.ok items1) h).2.count m.inner = h.count m.inner + 1 ∧
    (m.batteries (Except.ok items2)
        (m.batteries (Except.ok items1) h).2).1 = Except.ok ⟨⟨m.inner, items2⟩⟩ ∧
    (m.batteries (Except.ok items2)
        (m.batteries (Except.ok items1) h).2).2.count m.inner
      = h.count m.inner + 2 ∧
    RcHeap.alive
      ((m.batteries (Except.ok items2)
          (m.batteries (Except.ok items1) h).2).2.dropRef m.inner) m.inner ∧
    ((m.batteries (Except.ok items2)
        (m.batteries (Except.ok items1) h).2).2.dropRef m.inner).vals m.inner
      = h.vals m.inner := by
  refine ⟨rfl, by simp [Manager.batteries, RcHeap.clone], rfl, ?_, ?_, ?_⟩
  · simp [Manager.batteries, RcHeap.clone]
  · simp [Manager.batteries, RcHeap.clone, RcHeap.dropRef, RcHeap.alive]
  · simp [Manager.batteries, RcHeap.clone, RcHeap.dropRef]

/-- C4: `battery_manager_new` is total (its result type has no fault
branch); it returns a non-null handle to the newly constructed facade
Manager exactly when `Manager::new()` succeeds, and on failure stores the
error in the thread's last-error slot and returns null. -/
theorem battery_manager_new_spec (backend : Except Error PlatformManager)
    (s : FfiState) :
    (∀ pm, backend = Except.ok pm →
      (battery_manager_new backend s).1 = some s.nextPtr ∧
      (battery_manager_new backend s).2.managers s.nextPtr
        = some ⟨s.rc.nextId⟩ ∧
      (battery_manager_new backend s).2.rc.vals s.rc.nextId = some pm ∧
      (battery_manager_new backend s).2.lastError = s.lastError) ∧
    (∀ e, backend = Except.error e →
      (battery_manager_new backend s).1 = none ∧
      (battery_manager_new backend s).2.lastError = some e) := by
  constructor
  · rintro pm rfl
    simp [battery_manager_new, Manager.new, RcHeap.alloc]
  · rintro e rfl
    simp [battery_manager_new, Manager.new]

/-- Witness for C4: a successful construction returns the non-null handle 0
from the initial state, and a failed construction returns null with the
error message recorded. -/
theorem battery_manager_new_witness :
    (battery_manager_new (Except.ok PowerManager.mk) FfiState.init).1
      = some 0 ∧
    (battery_manager_new (Except.error "boom") FfiState.init).1 = none ∧
    (battery_manager_new (Except.error "boom") FfiState.init).2.lastError
      = some "boom" :=
  ⟨((battery_manager_new_spec (Except.ok PowerManager.mk) FfiState.init).1
      PowerManager.mk rfl).1,
   ((battery_manager_new_spec (Except.error "boom") FfiState.init).2
      "boom" rfl).1,
   ((battery_manager_new_spec (Except.error "boom") FfiState.init).2
      "boom" rfl).2⟩

/-- C7: `battery_manager_free` on the null pointer is a no-op: it returns
(no fault branch in its type) and the state is exactly unchanged. -/
theorem battery_manager_free_null (s : FfiState) :
    battery_manager_free none s = s := rfl

/-- C8: the Windows backend constructor `PowerManager::new()` always
returns `Ok(PowerManager {})`, never an error, so facade Manager
construction over this backend cannot fail. -/
theorem power_manager_new_infallible :
    PowerManager.new = Except.ok PowerManager.mk ∧
    (∀ e : Error, PowerManager.new ≠ Except.error e) ∧
    (∀ h : RcHeap, (Manager.new PowerManager.new h).1
      = Except.ok ⟨h.nextId⟩) := by
  refine ⟨rfl, fun e hne => ?_, fun h => rfl⟩
  simp [PowerManager.new] at hne

/-- C9: `battery_manager_iter` faults (assertion panic) on the null handle
without touching the last-error slot; on a live non-null handle it never
panics: it returns a non-null iterator handle holding the enumerated
snapshot when the backend iterator construction succeeds, and null with the
error stored in the last-error slot when it fails. -/
theorem battery_manager_iter_spec (p : Option Nat)
    (io : Except Error (List (Except Error Device))) (s : FfiState) :
    (p = none → ∃ msg, battery_manager_iter p io s = Except.error msg) ∧
    (∀ q m, p = some q → s.managers q = some m →
      ∃ r s1, battery_manager_iter p io s = Except.ok (r, s1) ∧
        (∀ items, io = Except.ok items →
          r = some s.nextPtr ∧
          s1.iterators s.nextPtr = some ⟨⟨m.inner, items⟩⟩) ∧
        (∀ e, io = Except.error e →
          r = none ∧ s1.lastError = some e)) := by
  constructor
  · rintro rfl
    exact ⟨_, rfl⟩
  · rintro q m rfl hm
    cases io with
    | ok items =>
      refine ⟨some s.nextPtr,
        { s with
           rc := s.rc.clone m.inner
           iterators := fun r => if r = s.nextPtr then
               some ⟨⟨m.inner, items⟩⟩ else s.iterators r
           nextPtr := s.nextPtr + 1 }, ?_, ?_, ?_⟩
      · simp [battery_manager_iter, hm, Manager.batteries]
      · rintro items2 h2
        cases h2
        refine ⟨rfl, ?_⟩
        simp
      · rintro e h2
        cases h2
    | error e =>
      refine ⟨none,
        { s with
           rc := (s.rc.clone m.inner).dropRef m.inner
           lastError := some e }, ?_, ?_, ?_⟩
      · simp [battery_manager_iter, hm, Manager.batteries]
      · rintro items2 h2
        cases h2
      · rintro e2 h2
        cases h2
        exact ⟨rfl, rfl⟩

/-- Witness for C9: from the state after one successful
`battery_manager_new`, the null handle faults and the live handle 0 yields
a defined (non-panicking) result. -/
theorem battery_manager_iter_witness :
    (∃ msg, battery_manager_iter none (Except.ok []) FfiState.init
      = Except.error msg) ∧
    (∃ r s1, battery_manager_iter (some 0) (Except.ok [])
        (battery_manager_new (Except.ok PowerManager.mk) FfiState.init).2
      = Except.ok (r, s1)) := by
  constructor
  · exact (battery_manager_iter_spec none (Except.ok []) FfiState.init).1 rfl
  · obtain ⟨r, s1, hr, -, -⟩ :=
      (battery_manager_iter_spec (some 0) (Except.ok [])
        (battery_manager_new (Except.ok PowerManager.mk) FfiState.init).2).2
        0 ⟨0⟩ rfl (by simp [battery_manager_new, Manager.new, RcHeap.alloc,
          FfiState.init, RcHeap.init])
    exact ⟨r, s1, hr⟩
